import Mathlib

/-!
# RSVP web application: admin view-model and submission flows

A shallow embedding of the RSVP application's core logic and proofs of its
specified properties.  Timestamps are modelled as integers (milliseconds since
the epoch, the value of `Date.getTime()`); the locale-aware string comparison
`localeCompare` is modelled as the three-way comparison induced by the linear
order on strings; the stable array sort is modelled by `List.insertionSort`,
which realises the same specification (output ordered by the comparator,
tied elements kept in input order).
-/

set_option autoImplicit false

namespace RSVPApp

/-! ### Data model -/

/-- An `events` row: identifier, title, timestamp, location, description and
whether a guest may bring a plus-one. -/
structure Event where
  id : String
  title : String
  date_time : Int
  location : String
  description : String
  allow_plus_one : Bool
deriving DecidableEq, Repr

/-- An `rsvps` row as inserted by the guest form. -/
structure RSVP where
  id : String
  name : String
  email : String
  dietary_preferences : String
  plus_one : Bool
  event_id : String
  response : String
deriving DecidableEq, Repr

/-- The admin dashboard's tab state: upcoming or past events. -/
inductive Tab
  | upcoming
  | past
deriving DecidableEq, Repr

/-- The admin dashboard's sort key. -/
inductive SortBy
  | time
  | name
deriving DecidableEq, Repr

/-- The admin dashboard's sort direction. -/
inductive SortOrder
  | asc
  | desc
deriving DecidableEq, Repr

/-- The admin dashboard's derived-view UI state. -/
structure AdminState where
  activeTab : Tab
  searchQuery : String
  sortBy : SortBy
  sortOrder : SortOrder
  currentPage : Nat
deriving DecidableEq, Repr

/-! ### String helpers

`String.prototype.includes` of the source is modelled by contiguous-substring
containment, and `localeCompare` by the three-way comparison of the linear
order on strings. -/

/-- `leadEq needle hay` holds when `needle` is an initial run of `hay`. -/
def leadEq : List Char → List Char → Bool
  | [], _ => true
  | _ :: _, [] => false
  | a :: as, b :: bs => a = b && leadEq as bs

/-- `hasSub needle hay`: `needle` occurs contiguously inside `hay`. -/
def hasSub (needle : List Char) : List Char → Bool
  | [] => needle.isEmpty
  | b :: bs => leadEq needle (b :: bs) || hasSub needle bs

/-- Model of `hay.includes(needle)`. -/
def strIncludes (hay needle : String) : Bool :=
  hasSub needle.toList hay.toList

/-- Model of `a.localeCompare(b)`: negative, zero or positive according to the
order of the two strings. -/
def localeCompare (a b : String) : Int :=
  if a < b then -1 else if b < a then 1 else 0

/-! ### Admin list view-model (`getFilteredEvents` and friends)

Faithful to `getFilteredEvents` / `getPaginatedEvents` in the admin dashboard
page: one `now` sample, tab match, case-insensitive search over title and
location, comparator sort, then an 8-per-page slice. -/

/-- The tab test inside `getFilteredEvents`:
`activeTab === 'upcoming' ? eventDate >= now : eventDate < now`. -/
def matchesTab (tab : Tab) (now : Int) (e : Event) : Bool :=
  match tab with
  | .upcoming => now ≤ e.date_time
  | .past => e.date_time < now

/-- The search test inside `getFilteredEvents`: empty query matches all,
otherwise case-insensitive containment in title or location. -/
def matchesSearch (q : String) (e : Event) : Bool :=
  q == "" || strIncludes e.title.toLower q.toLower
    || strIncludes e.location.toLower q.toLower

/-- The comparator passed to `.sort`, by sort key and direction:
time uses the difference of timestamps, name uses `localeCompare`. -/
def eventCmp (sb : SortBy) (so : SortOrder) (a b : Event) : Int :=
  match sb, so with
  | .time, .asc => a.date_time - b.date_time
  | .time, .desc => b.date_time - a.date_time
  | .name, .asc => localeCompare a.title b.title
  | .name, .desc => localeCompare b.title a.title

/-- The ordering relation realised by the stable sort: the comparator is
non-positive. -/
def eventRel (sb : SortBy) (so : SortOrder) (a b : Event) : Prop :=
  eventCmp sb so a b ≤ 0

instance (sb : SortBy) (so : SortOrder) : DecidableRel (eventRel sb so) :=
  fun a b => inferInstanceAs (Decidable (eventCmp sb so a b ≤ 0))

/-- The combined filter predicate of `getFilteredEvents`. -/
def matchesView (s : AdminState) (now : Int) (e : Event) : Bool :=
  matchesTab s.activeTab now e && matchesSearch s.searchQuery e

/-- Model of `getFilteredEvents`: filter by tab and search at a single `now`
sample, then stable-sort by the comparator. -/
def getFilteredEvents (events : List Event) (s : AdminState) (now : Int) : List Event :=
  (events.filter (matchesView s now)).insertionSort (eventRel s.sortBy s.sortOrder)

/-- `const eventsPerPage = 8`. -/
def eventsPerPage : Nat := 8

/-- Model of `getPaginatedEvents`: `filtered.slice(start, start + 8)` with
`start = (currentPage - 1) * eventsPerPage`. -/
def getPaginatedEvents (events : List Event) (s : AdminState) (now : Int) : List Event :=
  ((getFilteredEvents events s now).drop ((s.currentPage - 1) * eventsPerPage)).take
    eventsPerPage

/-- `Math.ceil(filtered.length / eventsPerPage)`, the page count shown by the
pagination controls. -/
def totalPages (events : List Event) (s : AdminState) (now : Int) : Nat :=
  ((getFilteredEvents events s now).length + (eventsPerPage - 1)) / eventsPerPage

/-- A displayed row of the dashboard: an event together with its RSVP count
(`rsvps.filter(r => r.event_id === event.id).length`). -/
structure EventWithCount where
  event : Event
  rsvpCount : Nat
deriving DecidableEq, Repr

/-- The full derived view: the paginated events, each paired with the count of
RSVPs referencing it. -/
def deriveView (events : List Event) (rsvps : List RSVP) (s : AdminState) (now : Int) :
    List EventWithCount :=
  (getPaginatedEvents events s now).map fun e =>
    ⟨e, (rsvps.filter fun r => r.event_id == e.id).length⟩

/-- Model of the tab-switch transition: `setActiveTab(t)` followed by the
`useEffect(() => setCurrentPage(1), [activeTab])` hook, which fires exactly
when the tab value actually changed. -/
def switchTab (s : AdminState) (t : Tab) : AdminState :=
  if t = s.activeTab then { s with activeTab := t }
  else { s with activeTab := t, currentPage := 1 }

/-! ### Auth Gate

The two variants of the admin mount-time session check.  A mount's observable
outcome records whether the gate issued the login redirect, logged an error,
went on to fetch the gated events/RSVPs data, or let the exception escape. -/

/-- The authenticated user carried by a session. -/
structure SessionUser where
  email : String
deriving DecidableEq, Repr

/-- Result of the Session Store query `supabase.auth.getSession()`: either a
returned value (a session or null) or a thrown transport/unexpected error. -/
inductive SessionQuery
  | ok (session : Option SessionUser)
  | threw
deriving DecidableEq, Repr

/-- Observable outcome of one mount of the gate. -/
structure GateOutcome where
  redirected : Bool
  loggedError : Bool
  fetchedData : Bool
  raisedException : Bool
deriving DecidableEq, Repr

/-- `checkSession` of the documented dashboard (part_002): the whole body is
wrapped in try/catch; a caught error is logged and answered with
`router.replace('/')`. -/
def checkSession : SessionQuery → GateOutcome
  | .ok none => ⟨true, false, false, false⟩
  | .ok (some _) => ⟨false, false, true, false⟩
  | .threw => ⟨true, true, false, false⟩

/-- `checkUser` of `src/pages/admin.tsx`: no try/catch, so a thrown session
query escapes as an unhandled rejection — no redirect, no log, no fetch. -/
def checkUser : SessionQuery → GateOutcome
  | .ok none => ⟨true, false, false, false⟩
  | .ok (some _) => ⟨false, false, true, false⟩
  | .threw => ⟨false, false, false, true⟩

/-! ### Admin event creation (`handleSubmit`) -/

/-- The create-event form state. -/
structure NewEvent where
  title : String
  date_time : Int
  location : String
  description : String
  allow_plus_one : Bool
deriving DecidableEq, Repr

/-- The reset value of the form, written back on a successful insert. -/
def emptyNewEvent : NewEvent :=
  ⟨"", 0, "", "", false⟩

/-- Outcome of one Repository insert call. -/
inductive InsertResult
  | ok
  | fail
deriving DecidableEq, Repr

/-- Observable outcome of the admin create-event submission. -/
structure AdminSubmitOutcome where
  dateTimeError : Option String
  insertAttempts : Nat
  form : NewEvent
deriving DecidableEq, Repr

/-- Model of the admin `handleSubmit`: block with a field error when the
selected timestamp is strictly before `now`, otherwise insert once; on a
successful insert the form is reset, on a failed one it is kept. -/
def adminHandleSubmit (form : NewEvent) (now : Int) (prevError : Option String)
    (r : InsertResult) : AdminSubmitOutcome :=
  if form.date_time < now then
    ⟨some "Please select a future date and time", 0, form⟩
  else
    match r with
    | .fail => ⟨prevError, 1, form⟩
    | .ok => ⟨prevError, 1, emptyNewEvent⟩

/-! ### Guest RSVP form and submission -/

/-- The guest RSVP form state. -/
structure RSVPForm where
  name : String
  email : String
  response : String
  plus_one : Bool
  dietary_preferences : String
deriving DecidableEq, Repr

/-- The initial guest form state. -/
def initialForm : RSVPForm :=
  ⟨"", "", "yes", false, ""⟩

/-- After the event is fetched, the form's plus-one flag is cleared when the
event does not allow a plus-one (`if (!data.allow_plus_one) setFormData(...)`). -/
def afterFetch (e : Event) (f : RSVPForm) : RSVPForm :=
  if e.allow_plus_one then f else { f with plus_one := false }

/-- A user interaction with the form.  The plus-one checkbox exists only under
`{event.allow_plus_one && (...)}`. -/
inductive FormAction
  | setName (v : String)
  | setEmail (v : String)
  | setResponse (v : String)
  | setPlusOne (b : Bool)
  | setDietary (v : String)
deriving DecidableEq, Repr

/-- One `handleChange` step.  Because the plus-one checkbox is rendered only
when the event allows a plus-one, a `setPlusOne` event cannot occur otherwise
and the step leaves the form unchanged in that case. -/
def applyAction (allowPlusOne : Bool) (f : RSVPForm) : FormAction → RSVPForm
  | .setName v => { f with name := v }
  | .setEmail v => { f with email := v }
  | .setResponse v => { f with response := v }
  | .setPlusOne b => if allowPlusOne then { f with plus_one := b } else f
  | .setDietary v => { f with dietary_preferences := v }

/-- A whole interaction history applied to the form. -/
def applyActions (allowPlusOne : Bool) (f : RSVPForm) (as : List FormAction) : RSVPForm :=
  as.foldl (applyAction allowPlusOne) f

/-- The row handed to `supabase.from("rsvps").insert`: the form fields plus
the event id from the URL. -/
structure RSVPRow where
  name : String
  email : String
  response : String
  plus_one : Bool
  dietary_preferences : String
  event_id : String
deriving DecidableEq, Repr

/-- `{ ...formData, event_id: eventId }`. -/
def submittedRow (f : RSVPForm) (eventId : String) : RSVPRow :=
  ⟨f.name, f.email, f.response, f.plus_one, f.dietary_preferences, eventId⟩

/-- Observable outcome of the guest `handleSubmit`. -/
structure GuestSubmitOutcome where
  insertAttempts : Nat
  insertedRow : RSVPRow
  navigatedTo : Option String
  form : RSVPForm
  errorAlerted : Bool
deriving DecidableEq, Repr

/-- Model of the guest `handleSubmit`: exactly one insert of the combined row
is attempted; a failure alerts and neither navigates nor touches the form; a
success navigates to the thank-you route carrying the chosen response. -/
def rsvpHandleSubmit (f : RSVPForm) (eventId : String) (r : InsertResult) :
    GuestSubmitOutcome :=
  match r with
  | .fail => ⟨1, submittedRow f eventId, none, f, true⟩
  | .ok => ⟨1, submittedRow f eventId, some ("/thank-you?response=" ++ f.response), f, false⟩

/-! ### Thank-you page -/

/-- Which of the two confirmation messages is rendered. -/
inductive ThankYouMessage
  | attending
  | notAttending
deriving DecidableEq, Repr

/-- Model of the thank-you page: `const isAttending = response === "yes"`,
branching between the two message blocks.  An absent query parameter is
`none`. -/
def thankYouRender (response : Option String) : ThankYouMessage :=
  if response = some "yes" then .attending else .notAttending

/-! ### Concrete fixtures used by witnesses and counterexamples -/

/-- An upcoming event (timestamp `5`, relative to `now = 0`). -/
def sampleEventU : Event :=
  ⟨"e1", "Gala Night", 5, "Hall", "d", true⟩

/-- An event that does not allow a plus-one. -/
def noP1Event : Event :=
  ⟨"e3", "Board Meeting", 9, "Room", "d", false⟩

/-- A form whose plus-one flag was somehow toggled on beforehand. -/
def toggledForm : RSVPForm :=
  ⟨"Ann", "ann@example.com", "yes", true, ""⟩

/-- An ordinary filled-in guest form. -/
def sampleForm : RSVPForm :=
  ⟨"Bob", "bob@example.com", "maybe", false, "vegan"⟩

/-- A create-event form dated strictly before `now = 0`. -/
def pastNewEvent : NewEvent :=
  ⟨"Gala", -1, "Hall", "d", false⟩

/-- A create-event form dated exactly at `now = 0`. -/
def boundaryNewEvent : NewEvent :=
  ⟨"Gala", 0, "Hall", "d", false⟩

/-- UI state requesting page 5 (far beyond a one-event list). -/
def pageBeyondState : AdminState :=
  ⟨Tab.upcoming, "", SortBy.time, SortOrder.asc, 5⟩

/-- UI state sitting on page 7 of the upcoming tab. -/
def baseState : AdminState :=
  ⟨Tab.upcoming, "", SortBy.time, SortOrder.asc, 7⟩

/-- Two distinct events tied on the time sort key. -/
def tieA : Event :=
  ⟨"a", "A", 5, "L", "d", false⟩

/-- Second element of the tied pair. -/
def tieB : Event :=
  ⟨"b", "B", 5, "L", "d", false⟩

/-- Time-ascending view state for the tied pair. -/
def tieState : AdminState :=
  ⟨Tab.upcoming, "", SortBy.time, SortOrder.asc, 1⟩

/-- Two distinct events sharing the title `"Gala"`. -/
def dupTitle1 : Event :=
  ⟨"d1", "Gala", 5, "L", "d", false⟩

/-- Second event with the duplicated title. -/
def dupTitle2 : Event :=
  ⟨"d2", "Gala", 6, "L", "d", false⟩

/-- Name-ascending view state. -/
def nameAscState : AdminState :=
  ⟨Tab.upcoming, "", SortBy.name, SortOrder.asc, 1⟩

/-- Name-descending view state. -/
def nameDescState : AdminState :=
  ⟨Tab.upcoming, "", SortBy.name, SortOrder.desc, 1⟩

/-- Two events with distinct titles. -/
def distinctA : Event :=
  ⟨"x1", "Alpha", 5, "L", "d", false⟩

/-- Second event of the distinct-title pair. -/
def distinctB : Event :=
  ⟨"x2", "Beta", 6, "L", "d", false⟩

/-! ### C1 — Auth Gate failure semantics -/

/-- C1 (counterexample): the claim states every mount of the admin Auth Gate
redirects to login and logs the error when the session query throws; the
`checkUser` mount of `src/pages/admin.tsx` does neither — the exception
escapes unhandled. -/
theorem authGate_error_redirect_counterexample :
    ¬((checkUser SessionQuery.threw).redirected = true ∧
      (checkUser SessionQuery.threw).loggedError = true) := by
  decide

/-- C1 (amended): the documented dashboard gate (`checkSession`) treats a
thrown session query as fail-closed — redirect to login, error logged, no
gated fetch, agreeing with the no-session case on redirect and fetch — while
the `checkUser` variant lets the exception escape, neither redirecting nor
logging, and likewise never fetches gated data. -/
theorem authGate_error_fail_closed :
    checkSession SessionQuery.threw =
      { redirected := true, loggedError := true, fetchedData := false,
        raisedException := false } ∧
    (checkSession SessionQuery.threw).redirected =
      (checkSession (SessionQuery.ok none)).redirected ∧
    (checkSession SessionQuery.threw).fetchedData =
      (checkSession (SessionQuery.ok none)).fetchedData ∧
    checkUser SessionQuery.threw =
      { redirected := false, loggedError := false, fetchedData := false,
        raisedException := true } :=
  ⟨rfl, rfl, rfl, rfl⟩

/-! ### C2 — upcoming/past partition -/

/-- C2: with one `now` sample per derivation, the tab classification is a
disjoint and exhaustive partition: an event is upcoming exactly when
`now ≤ date_time`, past exactly when `date_time < now`, never both, and the
two classes together exhaust the list. -/
theorem upcoming_past_partition (events : List Event) (now : Int) :
    (∀ e ∈ events,
      (e ∈ events.filter (matchesTab Tab.upcoming now) ↔ now ≤ e.date_time) ∧
      (e ∈ events.filter (matchesTab Tab.past now) ↔ e.date_time < now) ∧
      ¬(e ∈ events.filter (matchesTab Tab.upcoming now) ∧
        e ∈ events.filter (matchesTab Tab.past now))) ∧
    (events.filter (matchesTab Tab.upcoming now)).length +
      (events.filter (matchesTab Tab.past now)).length = events.length := by
  constructor
  · intro e he
    simp only [List.mem_filter, he, true_and, matchesTab, decide_eq_true_eq]
    omega
  · induction events with
    | nil => rfl
    | cons a t ih =>
      rcases lt_or_le a.date_time now with h | h
      · have e1 : matchesTab Tab.upcoming now a = false := by
          simp [matchesTab]
          omega
        have e2 : matchesTab Tab.past now a = true := by
          simp [matchesTab]
          omega
        simp only [List.filter_cons, e1, e2, List.length_cons, if_true, if_false,
          Bool.false_eq_true, ite_true, ite_false]
        omega
      · have e1 : matchesTab Tab.upcoming now a = true := by
          simp [matchesTab]
          omega
        have e2 : matchesTab Tab.past now a = false := by
          simp [matchesTab]
          omega
        simp only [List.filter_cons, e1, e2, List.length_cons, if_true, if_false,
          Bool.false_eq_true, ite_true, ite_false]
        omega

/-- C2 (witness): the concrete upcoming event is classified upcoming at
`now = 0`. -/
theorem upcoming_past_partition_witness :
    sampleEventU ∈ [sampleEventU].filter (matchesTab Tab.upcoming 0) ↔
      (0 : Int) ≤ sampleEventU.date_time :=
  ((upcoming_past_partition [sampleEventU] 0).1 sampleEventU (by simp)).1

/-! ### C3 — admin create-event date validation -/

/-- C3 (counterexample): the claim states a submission dated exactly at `now`
is blocked with no insert; the code only blocks strictly-past dates, so at
`date_time = now` the insert is attempted and no field error is set. -/
theorem admin_create_at_now_counterexample :
    (adminHandleSubmit boundaryNewEvent 0 none InsertResult.ok).insertAttempts = 1 ∧
    (adminHandleSubmit boundaryNewEvent 0 none InsertResult.ok).dateTimeError = none := by
  constructor <;> rfl

/-- C3 (amended): a submission whose `date_time` is strictly before `now` is
blocked — the field-level date error is set, no Repository insert happens and
the form is left unchanged; a `date_time` at or after `now` proceeds to the
insert. -/
theorem admin_create_past_blocked (form : NewEvent) (now : Int) (pe : Option String)
    (r : InsertResult) (h : form.date_time < now) :
    adminHandleSubmit form now pe r =
      ⟨some "Please select a future date and time", 0, form⟩ := by
  simp [adminHandleSubmit, h]

/-- C3 (witness): the strictly-past fixture is blocked at `now = 0`. -/
theorem admin_create_past_blocked_witness :
    adminHandleSubmit pastNewEvent 0 none InsertResult.ok =
      ⟨some "Please select a future date and time", 0, pastNewEvent⟩ :=
  admin_create_past_blocked pastNewEvent 0 none InsertResult.ok (by decide)

/-! ### C4 — plus-one forced false -/

/-- If the event does not allow a plus-one, no interaction step can set the
form's plus-one flag: the checkbox is not rendered, so the step is the
identity on that field. -/
theorem applyActions_false_plus_one (as : List FormAction) :
    ∀ f : RSVPForm, f.plus_one = false → (applyActions false f as).plus_one = false := by
  induction as with
  | nil => intro f hf; exact hf
  | cons a t ih =>
    intro f hf
    have hstep : (applyAction false f a).plus_one = false := by
      cases a <;> simp [applyAction, hf]
    exact ih _ hstep

/-- C4: for every prior form state and every interaction history, if the
parent event has `allow_plus_one = false` then the row handed to the
Repository has `plus_one = false`. -/
theorem plus_one_forced_false (e : Event) (f : RSVPForm) (as : List FormAction)
    (eventId : String) (h : e.allow_plus_one = false) :
    (submittedRow (applyActions e.allow_plus_one (afterFetch e f) as) eventId).plus_one =
      false := by
  rw [h]
  have h0 : (afterFetch e f).plus_one = false := by simp [afterFetch, h]
  simpa [submittedRow] using applyActions_false_plus_one as _ h0

/-- C4 (witness): even from a form whose flag was toggled on and a history
that tries to toggle it again, the submitted row has `plus_one = false`. -/
theorem plus_one_forced_false_witness :
    (submittedRow
      (applyActions noP1Event.allow_plus_one (afterFetch noP1Event toggledForm)
        [FormAction.setPlusOne true, FormAction.setName "Zoe"]) "e3").plus_one = false :=
  plus_one_forced_false noP1Event toggledForm
    [FormAction.setPlusOne true, FormAction.setName "Zoe"] "e3" rfl

/-! ### C5 — purity and tie stability of the derived view -/

/-- The comparator on strings is non-positive exactly when the first string
is at most the second. -/
theorem localeCompare_nonpos_iff (a b : String) : localeCompare a b ≤ 0 ↔ a ≤ b := by
  unfold localeCompare
  split
  · next h => simp [le_of_lt h]
  · split
    · next h1 h2 => simp [not_le.mpr h2]
    · next h1 h2 => simp [le_of_not_lt h2]

/-- The comparator relation is total, as JS `Array.prototype.sort` requires
of a consistent comparator. -/
theorem eventRel_total (sb : SortBy) (so : SortOrder) (a b : Event) :
    eventRel sb so a b ∨ eventRel sb so b a := by
  cases sb <;> cases so <;>
    simp only [eventRel, eventCmp, localeCompare_nonpos_iff] <;>
    first
      | omega
      | exact le_total _ _

/-- The comparator relation is transitive. -/
theorem eventRel_trans (sb : SortBy) (so : SortOrder) (a b c : Event)
    (h1 : eventRel sb so a b) (h2 : eventRel sb so b c) : eventRel sb so a c := by
  cases sb <;> cases so <;>
    simp only [eventRel, eventCmp, localeCompare_nonpos_iff] at h1 h2 ⊢ <;>
    first
      | omega
      | exact le_trans h1 h2
      | exact le_trans h2 h1

/-- C5: the derived view is a pure function of its inputs — two calls on
identical events, RSVPs and UI state agree — and the sort is stable: a pair
tied under the comparator keeps its input-relative order through
`getFilteredEvents`. -/
theorem deriveView_pure (events : List Event) (rsvps : List RSVP) (s : AdminState)
    (now : Int) :
    deriveView events rsvps s now = deriveView events rsvps s now ∧
    (∀ a b : Event, eventRel s.sortBy s.sortOrder a b → eventRel s.sortBy s.sortOrder b a →
      List.Sublist [a, b] (events.filter (matchesView s now)) →
      List.Sublist [a, b] (getFilteredEvents events s now)) := by
  refine ⟨rfl, fun a b hab _ hsub => ?_⟩
  exact List.pair_sublist_insertionSort hab hsub

/-- C5 (witness): the tied pair (equal timestamps) survives the time-ascending
derivation in input order. -/
theorem deriveView_pure_witness :
    List.Sublist [tieA, tieB] (getFilteredEvents [tieA, tieB] tieState 0) := by
  have hfl : List.filter (matchesView tieState 0) [tieA, tieB] = [tieA, tieB] := by decide
  exact (deriveView_pure [tieA, tieB] [] tieState 0).2 tieA tieB (by decide) (by decide)
    (by rw [hfl])

/-! ### C6 — name sort: sortedness and order reversal -/

/-- C6 (counterexample): with two distinct events sharing a title, the
descending output is *not* the reverse of the ascending output — the stable
sort keeps tied events in input order in both directions. -/
theorem name_sort_reverse_counterexample :
    ¬(getFilteredEvents [dupTitle1, dupTitle2] nameDescState 0 =
      (getFilteredEvents [dupTitle1, dupTitle2] nameAscState 0).reverse) := by
  have hGala : localeCompare "Gala" "Gala" = 0 := by
    simp [localeCompare]
  have hrelA : eventRel SortBy.name SortOrder.asc dupTitle1 dupTitle2 := by
    simp [eventRel, eventCmp, dupTitle1, dupTitle2, hGala]
  have hrelD : eventRel SortBy.name SortOrder.desc dupTitle1 dupTitle2 := by
    simp [eventRel, eventCmp, dupTitle1, dupTitle2, hGala]
  have hfA : List.filter (matchesView nameAscState 0) [dupTitle1, dupTitle2] =
      [dupTitle1, dupTitle2] := by decide
  have hfD : List.filter (matchesView nameDescState 0) [dupTitle1, dupTitle2] =
      [dupTitle1, dupTitle2] := by decide
  have hA : getFilteredEvents [dupTitle1, dupTitle2] nameAscState 0 =
      [dupTitle1, dupTitle2] := by
    show (List.filter (matchesView nameAscState 0)
        [dupTitle1, dupTitle2]).insertionSort (eventRel SortBy.name SortOrder.asc) =
      [dupTitle1, dupTitle2]
    rw [hfA]
    simp [List.insertionSort, List.orderedInsert, hrelA]
  have hD : getFilteredEvents [dupTitle1, dupTitle2] nameDescState 0 =
      [dupTitle1, dupTitle2] := by
    show (List.filter (matchesView nameDescState 0)
        [dupTitle1, dupTitle2]).insertionSort (eventRel SortBy.name SortOrder.desc) =
      [dupTitle1, dupTitle2]
    rw [hfD]
    simp [List.insertionSort, List.orderedInsert, hrelD]
  rw [hA, hD]
  decide

/-- C6 (amended): sorting by name ascending always yields lexicographically
non-decreasing titles; and, provided the filtered events carry pairwise
distinct titles, the descending output is exactly the reverse of the
ascending output.  (With duplicated titles the stable sort keeps tied events
in input order in both directions, so the reversal fails — see the
counterexample.) -/
theorem name_sort_sorted_and_reverse (events : List Event) (tab : Tab) (q : String)
    (page : Nat) (now : Int) :
    ((getFilteredEvents events ⟨tab, q, SortBy.name, SortOrder.asc, page⟩ now).map
      Event.title).Sorted (· ≤ ·) ∧
    (((events.filter
      (matchesView ⟨tab, q, SortBy.name, SortOrder.asc, page⟩ now)).map Event.title).Nodup →
      getFilteredEvents events ⟨tab, q, SortBy.name, SortOrder.desc, page⟩ now =
        (getFilteredEvents events ⟨tab, q, SortBy.name, SortOrder.asc, page⟩ now).reverse) := by
  haveI instTotA : IsTotal Event (eventRel SortBy.name SortOrder.asc) :=
    ⟨eventRel_total SortBy.name SortOrder.asc⟩
  haveI instTransA : IsTrans Event (eventRel SortBy.name SortOrder.asc) :=
    ⟨eventRel_trans SortBy.name SortOrder.asc⟩
  haveI instTotD : IsTotal Event (eventRel SortBy.name SortOrder.desc) :=
    ⟨eventRel_total SortBy.name SortOrder.desc⟩
  haveI instTransD : IsTrans Event (eventRel SortBy.name SortOrder.desc) :=
    ⟨eventRel_trans SortBy.name SortOrder.desc⟩
  have hA : List.Sorted (eventRel SortBy.name SortOrder.asc)
      (List.insertionSort (eventRel SortBy.name SortOrder.asc)
        (events.filter (matchesView ⟨tab, q, SortBy.name, SortOrder.asc, page⟩ now))) :=
    List.sorted_insertionSort _ _
  have hD : List.Sorted (eventRel SortBy.name SortOrder.desc)
      (List.insertionSort (eventRel SortBy.name SortOrder.desc)
        (events.filter (matchesView ⟨tab, q, SortBy.name, SortOrder.asc, page⟩ now))) :=
    List.sorted_insertionSort _ _
  have hpermA : List.Perm
      (List.insertionSort (eventRel SortBy.name SortOrder.asc)
        (events.filter (matchesView ⟨tab, q, SortBy.name, SortOrder.asc, page⟩ now)))
      (events.filter (matchesView ⟨tab, q, SortBy.name, SortOrder.asc, page⟩ now)) :=
    List.perm_insertionSort _ _
  have hpermD : List.Perm
      (List.insertionSort (eventRel SortBy.name SortOrder.desc)
        (events.filter (matchesView ⟨tab, q, SortBy.name, SortOrder.asc, page⟩ now)))
      (events.filter (matchesView ⟨tab, q, SortBy.name, SortOrder.asc, page⟩ now)) :=
    List.perm_insertionSort _ _
  constructor
  · show ((List.insertionSort (eventRel SortBy.name SortOrder.asc)
        (events.filter (matchesView ⟨tab, q, SortBy.name, SortOrder.asc, page⟩ now))).map
      Event.title).Sorted (· ≤ ·)
    exact List.pairwise_map.mpr
      (hA.imp fun h => (localeCompare_nonpos_iff _ _).mp h)
  · intro hnodup
    have hneA : List.Pairwise (fun a b : Event => a.title ≠ b.title)
        (List.insertionSort (eventRel SortBy.name SortOrder.asc)
          (events.filter (matchesView ⟨tab, q, SortBy.name, SortOrder.asc, page⟩ now))) :=
      List.pairwise_map.mp (((hpermA.map Event.title).nodup_iff).mpr hnodup)
    have hneD : List.Pairwise (fun a b : Event => a.title ≠ b.title)
        (List.insertionSort (eventRel SortBy.name SortOrder.desc)
          (events.filter (matchesView ⟨tab, q, SortBy.name, SortOrder.asc, page⟩ now))) :=
      List.pairwise_map.mp (((hpermD.map Event.title).nodup_iff).mpr hnodup)
    haveI : IsAntisymm Event (fun a b : Event => b.title < a.title) :=
      ⟨fun _ _ h1 h2 => absurd h1 (lt_asymm h2)⟩
    show List.insertionSort (eventRel SortBy.name SortOrder.desc)
        (events.filter (matchesView ⟨tab, q, SortBy.name, SortOrder.asc, page⟩ now)) =
      (List.insertionSort (eventRel SortBy.name SortOrder.asc)
        (events.filter (matchesView ⟨tab, q, SortBy.name, SortOrder.asc, page⟩ now))).reverse
    have hperm : List.Perm
        (List.insertionSort (eventRel SortBy.name SortOrder.desc)
          (events.filter (matchesView ⟨tab, q, SortBy.name, SortOrder.asc, page⟩ now)))
        (List.insertionSort (eventRel SortBy.name SortOrder.asc)
          (events.filter (matchesView ⟨tab, q, SortBy.name, SortOrder.asc, page⟩ now))).reverse :=
      hpermD.trans (hpermA.symm.trans (List.reverse_perm _).symm)
    have hsD : List.Sorted (fun a b : Event => b.title < a.title)
        (List.insertionSort (eventRel SortBy.name SortOrder.desc)
          (events.filter (matchesView ⟨tab, q, SortBy.name, SortOrder.asc, page⟩ now))) :=
      (hD.and hneD).imp fun h =>
        lt_of_le_of_ne ((localeCompare_nonpos_iff _ _).mp h.1) (Ne.symm h.2)
    have hsArev : List.Sorted (fun a b : Event => b.title < a.title)
        (List.insertionSort (eventRel SortBy.name SortOrder.asc)
          (events.filter (matchesView ⟨tab, q, SortBy.name, SortOrder.asc, page⟩ now))).reverse :=
      List.pairwise_reverse.mpr
        ((hA.and hneA).imp fun h =>
          lt_of_le_of_ne ((localeCompare_nonpos_iff _ _).mp h.1) h.2)
    exact List.eq_of_perm_of_sorted hperm hsD hsArev

/-- C6 (witness): on two events with distinct titles, the descending output
is the reverse of the ascending output. -/
theorem name_sort_sorted_and_reverse_witness :
    getFilteredEvents [distinctA, distinctB]
      ⟨Tab.upcoming, "", SortBy.name, SortOrder.desc, 1⟩ 0 =
      (getFilteredEvents [distinctA, distinctB]
        ⟨Tab.upcoming, "", SortBy.name, SortOrder.asc, 1⟩ 0).reverse :=
  (name_sort_sorted_and_reverse [distinctA, distinctB] Tab.upcoming "" 1 0).2 (by decide)

/-! ### C7 — pagination never overruns -/

/-- C7: the paginated slice holds at most `eventsPerPage` events for every
page value, and any page beyond the last valid page yields the empty slice
(the slice is total — nothing can be raised). -/
theorem pagination_safe (events : List Event) (s : AdminState) (now : Int) :
    (getPaginatedEvents events s now).length ≤ eventsPerPage ∧
    (totalPages events s now < s.currentPage → getPaginatedEvents events s now = []) := by
  constructor
  · exact List.length_take_le _ _
  · intro h
    unfold getPaginatedEvents
    have hlen : (getFilteredEvents events s now).length ≤
        (s.currentPage - 1) * eventsPerPage := by
      unfold totalPages at h
      unfold eventsPerPage at h ⊢
      omega
    rw [List.drop_eq_nil_of_le hlen]
    rfl

/-- C7 (witness): page 5 of a one-event list is the empty slice. -/
theorem pagination_safe_witness :
    getPaginatedEvents [sampleEventU] pageBeyondState 0 = [] :=
  (pagination_safe [sampleEventU] pageBeyondState 0).2 (by decide)

/-! ### C8 — tab change resets the page -/

/-- C8: switching to the other tab always lands on `currentPage = 1`,
whatever the prior page was. -/
theorem switchTab_resets_page (s : AdminState) (t : Tab) (h : t ≠ s.activeTab) :
    (switchTab s t).currentPage = 1 ∧ (switchTab s t).activeTab = t := by
  simp [switchTab, h]

/-- C8 (witness): switching from upcoming (page 7) to past resets to page 1. -/
theorem switchTab_resets_page_witness :
    (switchTab baseState Tab.past).currentPage = 1 ∧
    (switchTab baseState Tab.past).activeTab = Tab.past :=
  switchTab_resets_page baseState Tab.past (by decide)

/-! ### C9 — guest submission failure is terminal -/

/-- C9: exactly one insert is attempted; on failure there is no navigation
and the form is untouched, and navigation (carrying the chosen response)
happens precisely on insert success. -/
theorem rsvp_submit_failure_terminal (f : RSVPForm) (eid : String) (r : InsertResult)
    (h : r = InsertResult.fail) :
    (rsvpHandleSubmit f eid r).insertAttempts = 1 ∧
    (rsvpHandleSubmit f eid r).navigatedTo = none ∧
    (rsvpHandleSubmit f eid r).form = f ∧
    (∀ r2 : InsertResult, (rsvpHandleSubmit f eid r2).navigatedTo.isSome ↔
      r2 = InsertResult.ok) ∧
    (rsvpHandleSubmit f eid InsertResult.ok).navigatedTo =
      some ("/thank-you?response=" ++ f.response) := by
  subst h
  refine ⟨rfl, rfl, rfl, ?_, rfl⟩
  intro r2
  cases r2 <;> simp [rsvpHandleSubmit]

/-- C9 (witness): a failed insert of the sample form does not navigate. -/
theorem rsvp_submit_failure_terminal_witness :
    (rsvpHandleSubmit sampleForm "e1" InsertResult.fail).navigatedTo = none :=
  (rsvp_submit_failure_terminal sampleForm "e1" InsertResult.fail rfl).2.1

/-! ### C10 — thank-you page binarizes the response -/

/-- C10: the attending message renders exactly when the `response` query
parameter equals `"yes"`; `"maybe"` and an absent parameter both render the
non-attending message. -/
theorem thankYou_attending_iff (r : Option String) :
    (thankYouRender r = ThankYouMessage.attending ↔ r = some "yes") ∧
    thankYouRender (some "maybe") = ThankYouMessage.notAttending ∧
    thankYouRender none = ThankYouMessage.notAttending := by
  refine ⟨?_, by decide, rfl⟩
  constructor
  · intro h
    by_contra hne
    simp [thankYouRender, hne] at h
  · intro h
    simp [thankYouRender, h]

end RSVPApp
